import Mathlib

/-!
Verification of the feed-building pipeline in `src/build_feed.py`
(repository psyarxiv-bluesky-rss-ja).

The Python source is shallowly embedded: pure string manipulation is
translated to executable Lean functions on `String` / `List Char`;
every network interaction (the Bluesky feed fetch, the OSF metadata
fetch, the OpenAI translation call, date formatting through the
`datetime` library) is abstracted as an explicit oracle parameter, and
exception-raising calls return `Option` values (`none` = the call
raised).  Definitions keep the names of the Python functions they embed.

Python string primitives are re-implemented on `List Char` so that
kernel evaluation is possible and so that their semantics visibly match
CPython: `str.strip` (`pyStrip`), `str.replace` (`pyReplace`, for the
non-empty patterns the source uses), `re.sub(r"\s+", " ", _)`
(`collapseWs`).  `Char.isWhitespace` stands in for Python's `\s`; it
covers space, tab, CR and LF, which is exact on every string the
source ever produces (ASCII and Japanese text without exotic spaces).
-/

/-! ### Settings (src/build_feed.py lines 17-32) -/

def ACTOR : String := "psyarxivbot.bsky.social"

def LIMIT : Nat := 50

def SOURCE_API : String :=
  "https://public.api.bsky.app/xrpc/app.bsky.feed.getAuthorFeed?actor=" ++ ACTOR
    ++ "&limit=" ++ toString LIMIT

def MODEL : String := "gpt-5-mini"

def MAX_AUTHORS_IN_DISPLAY : Nat := 1

/-! ### Python string primitives -/

/-- Python `str.strip()`: remove leading and trailing whitespace. -/
def pyStrip (s : String) : String :=
  String.mk (((s.toList.dropWhile Char.isWhitespace).reverse.dropWhile Char.isWhitespace).reverse)

/-- Fuelled core of `str.replace`: non-overlapping left-to-right replacement.
The fuel is an upper bound on the number of scanning steps; each step
consumes at least one character of the input when the pattern is non-empty. -/
def replaceFuel (pat rep : List Char) : Nat → List Char → List Char
  | 0, cs => cs
  | _ + 1, [] => []
  | n + 1, c :: cs =>
    if pat.isPrefixOf (c :: cs) then rep ++ replaceFuel pat rep n (List.drop pat.length (c :: cs))
    else c :: replaceFuel pat rep n cs

/-- Python `s.replace(pat, rep)` for a non-empty `pat` (every call site in the
source passes a non-empty pattern; for an empty pattern we return `s`). -/
def pyReplace (s pat rep : String) : String :=
  if pat = "" then s
  else String.mk (replaceFuel pat.toList rep.toList s.toList.length s.toList)

/-- Core of `re.sub(r"\s+", " ", _)`: each maximal whitespace run becomes a
single space.  The Boolean records whether we are inside a whitespace run. -/
def collapseWsAux : Bool → List Char → List Char
  | _, [] => []
  | inRun, c :: cs =>
    if c.isWhitespace then
      if inRun then collapseWsAux true cs
      else ' ' :: collapseWsAux true cs
    else c :: collapseWsAux false cs

/-- Python `re.sub(r"\s+", " ", s)`. -/
def collapseWs (s : String) : String :=
  String.mk (collapseWsAux false s.toList)

/-! ### URL extraction (src/build_feed.py lines 47-67)

`extract_osf_url` runs `re.search(r"https?://psyarxiv\.com/\S+", text)` and,
failing that, the same pattern for `osf.io`; the matched URL has trailing
`)` `.` `,` `]` stripped.  The regex is embedded directly: a match at a
position is the literal scheme-and-host prefix followed by at least one
non-whitespace character, and (since `\S+` is greedy and final) the whole
match is the maximal non-whitespace run from that position; `re.search`
takes the leftmost matching position. -/

def nonSpace (c : Char) : Bool := !c.isWhitespace

/-- Characters stripped by `.rstrip(").,]")`. -/
def isTrailStrip (c : Char) : Bool := c = ')' || c = '.' || c = ',' || c = ']'

/-- Python `.rstrip(").,]")` on a matched URL. -/
def stripTrail (cs : List Char) : List Char :=
  (cs.reverse.dropWhile isTrailStrip).reverse

/-- Attempt the literal prefix `pre` at the head of `cs`, requiring at least
one further non-whitespace character (the `\S+` part); on success the match
is the maximal non-whitespace run from this position. -/
def tryPre (pre cs : List Char) : Option (List Char) :=
  if pre.isPrefixOf cs then
    match cs.drop pre.length with
    | [] => none
    | c :: _ => if nonSpace c then some (cs.takeWhile nonSpace) else none
  else none

/-- A match of `https?://<host>/\S+` anchored at the head of `cs`. -/
def matchAt (host cs : List Char) : Option (List Char) :=
  match tryPre ("https://".toList ++ host ++ ['/']) cs with
  | some m => some m
  | none => tryPre ("http://".toList ++ host ++ ['/']) cs

/-- `re.search`: leftmost match of `https?://<host>/\S+` in the text. -/
def searchUrl (host : List Char) : List Char → Option (List Char)
  | [] => none
  | c :: rest =>
    match matchAt host (c :: rest) with
    | some m => some m
    | none => searchUrl host rest

def psyHost : List Char := "psyarxiv.com".toList

def osfHost : List Char := "osf.io".toList

/-- Embeds `extract_osf_url` (src/build_feed.py lines 47-61): `None`/empty
text gives `None`; otherwise the first `psyarxiv.com` URL, else the first
`osf.io` URL, else `None`; the match has trailing `).,]` stripped. -/
def extract_osf_url (text : Option String) : Option String :=
  match text with
  | none => none
  | some t =>
    if t = "" then none
    else
      match searchUrl psyHost t.toList with
      | some m => some (String.mk (stripTrail m))
      | none =>
        match searchUrl osfHost t.toList with
        | some m => some (String.mk (stripTrail m))
        | none => none

/-! ### OSF id extraction (src/build_feed.py lines 64-67)

`re.search(r"osf\.io/([a-z0-9]+)", url, flags=re.IGNORECASE)`: leftmost
case-insensitive occurrence of the literal `osf.io/` followed by at least
one ASCII alphanumeric character; the captured group is the maximal such
run (original case preserved). -/

/-- Case-insensitive literal prefix test. -/
def lcIsPrefixOf : List Char → List Char → Bool
  | [], _ => true
  | _ :: _, [] => false
  | a :: xs, b :: ys => (a.toLower == b.toLower) && lcIsPrefixOf xs ys

/-- `[a-z0-9]` under `re.IGNORECASE`. -/
def isIdChar (c : Char) : Bool :=
  ('a' ≤ c && c ≤ 'z') || ('A' ≤ c && c ≤ 'Z') || ('0' ≤ c && c ≤ '9')

/-- A match of `osf\.io/([a-z0-9]+)` anchored at the head of `cs`,
returning the captured group. -/
def matchIdAt (cs : List Char) : Option (List Char) :=
  if lcIsPrefixOf ("osf.io/".toList) cs then
    match (cs.drop 7).takeWhile isIdChar with
    | [] => none
    | c :: l => some (c :: l)
  else none

/-- Leftmost match of `osf\.io/([a-z0-9]+)`. -/
def searchId : List Char → Option (List Char)
  | [] => none
  | c :: rest =>
    match matchIdAt (c :: rest) with
    | some l => some l
    | none => searchId rest

/-- Embeds `extract_osf_id` (src/build_feed.py lines 64-67). -/
def extract_osf_id (url : String) : Option String :=
  (searchId url.toList).map String.mk

example : extract_osf_url (some "New study https://psyarxiv.com/abcd1 nice!")
    = some "https://psyarxiv.com/abcd1" := by decide

example : extract_osf_url (some "see https://osf.io/xyz99), end")
    = some "https://osf.io/xyz99" := by decide

example : extract_osf_url (some "see https://osf.io/a and https://psyarxiv.com/b")
    = some "https://psyarxiv.com/b" := by decide

example : extract_osf_url (some "nothing here") = none := by decide

example : extract_osf_id "https://osf.io/ABC12/" = some "ABC12" := by decide

example : extract_osf_id "https://psyarxiv.com/abcd1" = none := by decide

/-! ### Fallback title from the post text (src/build_feed.py lines 70-78)

`extract_en_title_from_post` removes the URL from the text, strips it,
removes a trailing run of `re.sub(r"[:\-–—\s]+$", "", _)` separators,
strips again, and falls back to the URL itself when nothing remains.
`fallback_core` names the computed candidate so the final `if` is visible. -/

/-- The character class `[:\-–—\s]` of the trailing-separator regex. -/
def isTrailSep (c : Char) : Bool :=
  c = ':' || c = '-' || c = '–' || c = '—' || c.isWhitespace

/-- The title candidate computed by `extract_en_title_from_post` before its
final `if t else url` fallback: `re.sub(r"[:\-–—\s]+$", "", text.replace(url, "").strip()).strip()`. -/
def fallback_core (text url : String) : String :=
  pyStrip (String.mk (((pyStrip (pyReplace text url "")).toList.reverse.dropWhile isTrailSep).reverse))

/-- Embeds `extract_en_title_from_post` (src/build_feed.py lines 70-78). -/
def extract_en_title_from_post (text url : String) : String :=
  if fallback_core text url = "" then url else fallback_core text url

/-! ### Author formatting (src/build_feed.py lines 163-171) -/

/-- Embeds `format_authors_et_al` (src/build_feed.py lines 163-171). -/
def format_authors_et_al (names : List String) (max_authors : Nat) : String :=
  match names with
  | [] => ""
  | [n] => n
  | _ =>
    let head := if max_authors > 0 then names.take max_authors else names.take 1
    if max_authors ≤ 1 then head.headD "" ++ " et al."
    else String.intercalate ", " head ++ " et al."

/-! ### Translation (src/build_feed.py lines 178-214)

`ja_title_from_en` returns the English title untouched when
`OPENAI_API_KEY` is unset or empty (Python truthiness of
`os.environ.get`).  Otherwise it performs exactly one Chat Completions
call — there is no cache of any kind in the source.  The call is
abstracted as `service : String → Option String`, where `none` models a
raised exception (caught by the source's `try`/`except`) and `some c`
the returned message content with Python's `content or ""` already
applied.  The second component of the result counts how many service
calls this invocation performed. -/

/-- Python truthiness of `os.environ.get("OPENAI_API_KEY")`:
`none` models an unset variable, `some ""` an empty one. -/
def hasKey : Option String → Bool
  | none => false
  | some s => !(s == "")

/-- Embeds `ja_title_from_en` (src/build_feed.py lines 178-214), returning
the produced title and the number of translation-service invocations. -/
def ja_title_from_en (apiKey : Option String) (service : String → Option String)
    (en_title : String) : String × Nat :=
  if hasKey apiKey then
    match service en_title with
    | none => (en_title, 1)
    | some content =>
      if pyStrip content = "" then (en_title, 1)
      else (pyStrip (collapseWs (pyStrip content)), 1)
  else (en_title, 0)

/-! ### Entry building (src/build_feed.py lines 221-319)

`build_real_entries` fetches the feed JSON (here an `Option (List Record)`
oracle value: `none` models a failed `fetch_source_feed_json`, in which
case the source returns `[]`), then builds one entry per feed item whose
record text is non-empty and yields a URL.  The per-item OSF metadata
lookup `get_osf_title_and_authors` is abstracted as the oracle
`getOsf : String → Option String × List String` (API title, ordered
author names); the `datetime` parsing-and-formatting of `createdAt` is
the oracle `parseFmt` (`none` models a raised parse exception) with
`now` the RFC-formatted current time used on failure.

`Record` carries the fields the upstream Bluesky post JSON exposes:
besides `text` and `createdAt` it has the structured facet URIs and
embed URIs of the post — the source never reads those two fields. -/

structure Record where
  text : String
  createdAt : Option String
  facetUris : List String
  embedUris : List String
deriving DecidableEq

structure Entry where
  title : String
  description : String
  link : String
  guid : String
  pubDate : String
deriving DecidableEq

/-- The `en_title` selection of src/build_feed.py lines 242-256: a
non-empty-after-strip API title wins, otherwise the post-text fallback. -/
def resolve_en_title (apiTitle : Option String) (text url : String) : String :=
  match apiTitle with
  | some t => if pyStrip t = "" then extract_en_title_from_post text url else pyStrip t
  | none => extract_en_title_from_post text url

/-- The `pubDate` computation of src/build_feed.py lines 270-279:
`createdAt` (when truthy) is passed through
`format_datetime(fromisoformat(_.replace("Z", "+00:00")).astimezone(utc))`
— modelled by `parseFmt` — with the current time on absence or failure. -/
def pubDateOf (parseFmt : String → Option String) (now : String) (r : Record) : String :=
  match r.createdAt with
  | some c => if c = "" then now else (parseFmt (pyReplace c "Z" "+00:00")).getD now
  | none => now

/-- The entry built for one surviving feed item
(src/build_feed.py lines 242-289). -/
def entryBody (getOsf : String → Option String × List String) (apiKey : Option String)
    (service : String → Option String) (parseFmt : String → Option String)
    (now : String) (r : Record) (url : String) : Entry :=
  let api : Option (Option String × List String) :=
    match extract_osf_id url with
    | some i => some (getOsf i)
    | none => none
  let apiTitle : Option String :=
    match api with
    | some pr => pr.1
    | none => none
  let authorNames : List String :=
    match api with
    | some pr => pr.2
    | none => []
  let en_title := resolve_en_title apiTitle r.text url
  let authors_display :=
    match authorNames with
    | [] => ""
    | ns => format_authors_et_al ns MAX_AUTHORS_IN_DISPLAY
  let ja_title := (ja_title_from_en apiKey service en_title).1
  let description := String.intercalate " | "
    (["EN: " ++ en_title]
      ++ (if authors_display = "" then [] else ["Authors: " ++ authors_display])
      ++ ["Link: " ++ url])
  { title := ja_title
    description := description
    link := url
    guid := url ++ "#ja"
    pubDate := pubDateOf parseFmt now r }

/-- One iteration of the `build_real_entries` loop: items with empty text
or no recognized URL are skipped (src/build_feed.py lines 230-240). -/
def entryOfRecord (getOsf : String → Option String × List String) (apiKey : Option String)
    (service : String → Option String) (parseFmt : String → Option String)
    (now : String) (r : Record) : Option Entry :=
  if r.text = "" then none
  else
    match extract_osf_url (some r.text) with
    | none => none
    | some url => some (entryBody getOsf apiKey service parseFmt now r url)

/-- Embeds `build_real_entries` (src/build_feed.py lines 221-291). -/
def build_real_entries (data : Option (List Record))
    (getOsf : String → Option String × List String) (apiKey : Option String)
    (service : String → Option String) (parseFmt : String → Option String)
    (now : String) : List Entry :=
  match data with
  | none => []
  | some feed => feed.filterMap (entryOfRecord getOsf apiKey service parseFmt now)

/-- Embeds `build_test_entries` (src/build_feed.py lines 294-311). -/
def build_test_entries (now : String) : List Entry :=
  [ { title := "テスト論文その1"
      description := "EN: Test paper one | Authors: Smith et al. | Link: https://psyarxiv.com/abcd1"
      link := "https://psyarxiv.com/abcd1"
      guid := "https://psyarxiv.com/abcd1#ja"
      pubDate := now },
    { title := "テスト論文その2"
      description := "EN: Test paper two | Authors: Tanaka et al. | Link: https://psyarxiv.com/abcd2"
      link := "https://psyarxiv.com/abcd2"
      guid := "https://psyarxiv.com/abcd2#ja"
      pubDate := now } ]

/-- Embeds `build_entries` (src/build_feed.py lines 314-319): the test
entries are substituted exactly when the real entry list is empty. -/
def build_entries (data : Option (List Record))
    (getOsf : String → Option String × List String) (apiKey : Option String)
    (service : String → Option String) (parseFmt : String → Option String)
    (now : String) : List Entry :=
  match build_real_entries data getOsf apiKey service parseFmt now with
  | [] => build_test_entries now
  | e :: es => e :: es

/-! ### RSS generation (src/build_feed.py lines 326-362) -/

/-- One character of Python `html.escape(s)` (quote=True).  The source's
chain of five `str.replace` calls is equivalent to this character map
because the earlier replacements never produce characters replaced later. -/
def escChar (c : Char) : List Char :=
  if c = '&' then "&amp;".toList
  else if c = '<' then "&lt;".toList
  else if c = '>' then "&gt;".toList
  else if c = '"' then "&quot;".toList
  else if c = '\'' then "&#x27;".toList
  else [c]

/-- Python `html.escape(s)` as used by `build_rss_xml`. -/
def htmlEscape (s : String) : String :=
  String.mk (s.toList.flatMap escChar)

/-- The `<item>` block built for one entry (src/build_feed.py lines 334-349);
`guid` falls back to the link when falsy, `pubDate` is inserted unescaped. -/
def itemXml (e : Entry) : String :=
  "  <item>\n    <title>" ++ htmlEscape e.title
    ++ "</title>\n    <link>" ++ htmlEscape e.link
    ++ "</link>\n    <guid isPermaLink=\"false\">"
    ++ htmlEscape (if e.guid = "" then e.link else e.guid)
    ++ "</guid>\n    <pubDate>" ++ e.pubDate
    ++ "</pubDate>\n    <description>" ++ htmlEscape e.description
    ++ "</description>\n  </item>"

/-- Embeds `build_rss_xml` (src/build_feed.py lines 326-362). -/
def build_rss_xml (entries : List Entry) : String :=
  let channel_title := "PsyArXiv bot (日本語タイトル付き)"
  let channel_link := "https://bsky.app/profile/" ++ ACTOR
  let channel_description :=
    ACTOR ++ " のポストから PsyArXiv 論文へのリンクを集め、日本語タイトル（英語タイトル）形式で配信する非公式RSSフィード"
  "<?xml version=\"1.0\" encoding=\"UTF-8\"?>\n<rss version=\"2.0\">\n<channel>\n  <title>"
    ++ htmlEscape channel_title ++ "</title>\n  <link>" ++ htmlEscape channel_link
    ++ "</link>\n  <description>" ++ htmlEscape channel_description
    ++ "</description>\n  <language>ja</language>\n"
    ++ String.intercalate "\n" (entries.map itemXml)
    ++ "\n</channel>\n</rss>\n"

/-! ### Derived helper: which feed items survive -/

/-- A feed item survives the `build_real_entries` loop exactly when its
text is non-empty and yields a URL. -/
def record_ok (r : Record) : Bool :=
  if r.text = "" then false else (extract_osf_url (some r.text)).isSome

/-! ### Definitions modelled from the spec

The spec describes several mechanisms that have no counterpart anywhere
in `src/`.  To state the corresponding claims at all, those mechanisms
are modelled here from the spec's own words and compared against the
source's behaviour; they are *not* translations of any source code. -/

/-- Prefix test on strings through their character lists. -/
def strStarts (p s : String) : Bool := p.toList.isPrefixOf s.toList

/-- Maximal whitespace-separated tokens of a text (`acc` holds the current
token reversed). -/
def wsTokensAux (acc : List Char) : List Char → List String
  | [] => if acc = [] then [] else [String.mk acc.reverse]
  | c :: cs =>
    if c.isWhitespace then
      if acc = [] then wsTokensAux [] cs
      else String.mk acc.reverse :: wsTokensAux [] cs
    else wsTokensAux (c :: acc) cs

/-- Modelled from the spec: the regex scan for bare URLs in the free-text
body used by the spec's URL Extractor (no such multi-URL scan exists in
src; source scans for one preferred URL only).  A whitespace-separated
token counts as a bare URL when it starts with a scheme. -/
def specBareUrls (t : String) : List String :=
  (wsTokensAux [] t.toList).filter
    (fun w => strStarts "https://" w || strStarts "http://" w)

/-- Order-preserving de-duplication (first occurrence wins), as the spec's
Extractor output requires. -/
def dedupGo (seen : List String) : List String → List String
  | [] => []
  | x :: xs => if seen.contains x then dedupGo seen xs else x :: dedupGo (x :: seen) xs

def dedupKeepFirst (l : List String) : List String := dedupGo [] l

/-- Modelled from the spec: the URL Extractor's union of facet URIs, embed
URIs and bare-text URLs, ordered by source precedence then within-source
order, de-duplicated keeping first occurrences (spec §4.1; no such union
exists in src, which reads only the free text). -/
def specExtractUrls (r : Record) : List String :=
  dedupKeepFirst (r.facetUris ++ r.embedUris ++ specBareUrls r.text)

/-- Modelled from the spec: the identifier after a known mirror prefix,
lower-cased (spec §4.2; no canonicalization exists in src). -/
def specDomId (pre url : String) : String :=
  String.mk (((url.toList.drop pre.length).takeWhile (fun c => c != '/')).map Char.toLower)

/-- Modelled from the spec: the URL Normalizer (spec §4.2) with its
mirror probe — preferred-mirror URLs canonicalize directly; secondary
(`osf.io`) URLs probe the preferred mirror and canonicalize to the
preferred form on a success-range response, else to the secondary form;
other domains are not applicable.  No such probe exists in src. -/
def specNormalize (probe : String → Bool) (url : String) : Option String :=
  if strStarts "https://psyarxiv.com/" url then
    some ("psyarxiv:" ++ specDomId "https://psyarxiv.com/" url)
  else if strStarts "http://psyarxiv.com/" url then
    some ("psyarxiv:" ++ specDomId "http://psyarxiv.com/" url)
  else if strStarts "https://osf.io/" url then
    if probe ("https://psyarxiv.com/" ++ specDomId "https://osf.io/" url) then
      some ("psyarxiv:" ++ specDomId "https://osf.io/" url)
    else some ("osf:" ++ specDomId "https://osf.io/" url)
  else if strStarts "http://osf.io/" url then
    if probe ("https://psyarxiv.com/" ++ specDomId "http://osf.io/" url) then
      some ("psyarxiv:" ++ specDomId "http://osf.io/" url)
    else some ("osf:" ++ specDomId "http://osf.io/" url)
  else none

/-- Modelled from the spec: the HTML page of a preprint as seen by the
Metadata Resolver's scrape stage (spec §4.5; no HTML fetch exists in src). -/
structure HtmlPage where
  citationTitle : Option String
  ogTitle : Option String
  h1Text : Option String
  titleTag : Option String
deriving DecidableEq

/-- Modelled from the spec: accept one scraped tag value unless it is
empty after stripping or a generic placeholder. -/
def pickTag (isGeneric : String → Bool) (o : Option String) : Option String :=
  match o with
  | none => none
  | some v => if pyStrip v = "" then none else if isGeneric v then none else some v

/-- Modelled from the spec: scan the page tags in priority order —
citation meta tag, og:title, first h1, title element. -/
def scanHtmlPage (isGeneric : String → Bool) (p : HtmlPage) : Option String :=
  match pickTag isGeneric p.citationTitle with
  | some v => some v
  | none =>
    match pickTag isGeneric p.ogTitle with
    | some v => some v
    | none =>
      match pickTag isGeneric p.h1Text with
      | some v => some v
      | none => pickTag isGeneric p.titleTag

/-- Modelled from the spec: the scrape-then-fallback tail of the
Metadata Resolver (spec §4.5, strategies 2 and 3). -/
def specScrapeOrFallback (isGeneric : String → Bool) (page : Option HtmlPage)
    (text url : String) : String :=
  match page with
  | some p =>
    match scanHtmlPage isGeneric p with
    | some v => v
    | none => extract_en_title_from_post text url
  | none => extract_en_title_from_post text url

/-- Modelled from the spec: the full three-strategy title resolution of
the Metadata Resolver (spec §4.5): API title, then HTML scrape, then
post-text fallback.  No HTML scrape stage exists in src. -/
def specResolveTitle (isGeneric : String → Bool) (apiTitle : Option String)
    (page : Option HtmlPage) (text url : String) : String :=
  match apiTitle with
  | some t =>
    if pyStrip t = "" then specScrapeOrFallback isGeneric page text url
    else pyStrip t
  | none => specScrapeOrFallback isGeneric page text url

example : extract_en_title_from_post
    "New study on memory https://psyarxiv.com/abcd1 interesting!"
    "https://psyarxiv.com/abcd1" = "New study on memory  interesting!" := by decide

example : extract_en_title_from_post "Check this out: https://osf.io/xyz99"
    "https://osf.io/xyz99" = "Check this out" := by decide

example : (ja_title_from_en (some "k") (fun _ => some " 訳 文 ") "T") = ("訳 文", 1) := by decide

example : (ja_title_from_en none (fun _ => some "x") "T") = ("T", 0) := by decide

/-! ## Theorems -/

/-! ### Leftmost-match correctness of the embedded `re.search` -/

theorem tryPre_nil (pre : List Char) : tryPre pre [] = none := by
  cases pre with
  | nil => rfl
  | cons c cs => rfl

theorem matchAt_nil (host : List Char) : matchAt host [] = none := by
  unfold matchAt
  rw [tryPre_nil]
  exact tryPre_nil _

/-- `searchUrl` returns `none` exactly when no position of the text matches. -/
theorem searchUrl_eq_none_iff (host cs : List Char) :
    searchUrl host cs = none ↔ ∀ i, matchAt host (cs.drop i) = none := by
  induction cs with
  | nil =>
    simp only [searchUrl, List.drop_nil, true_iff]
    intro i
    exact matchAt_nil host
  | cons c rest ih =>
    constructor
    · intro h i
      rw [searchUrl] at h
      cases hm : matchAt host (c :: rest) with
      | some m => rw [hm] at h; simp at h
      | none =>
        rw [hm] at h
        simp only [] at h
        cases i with
        | zero => simpa using hm
        | succ j =>
          rw [List.drop_succ_cons]
          exact (ih.mp h) j
    · intro h
      rw [searchUrl]
      have h0 : matchAt host (c :: rest) = none := by simpa using h 0
      rw [h0]
      exact ih.mpr (fun i => by simpa using h (i + 1))

/-- A successful `searchUrl` is the leftmost match: it matches at some
position before which no position matches. -/
theorem searchUrl_eq_some_spec {host cs : List Char} {m : List Char}
    (h : searchUrl host cs = some m) :
    ∃ i, matchAt host (cs.drop i) = some m ∧
      ∀ j, j < i → matchAt host (cs.drop j) = none := by
  induction cs with
  | nil => simp [searchUrl] at h
  | cons c rest ih =>
    rw [searchUrl] at h
    cases hm : matchAt host (c :: rest) with
    | some m0 =>
      rw [hm] at h
      simp only [Option.some.injEq] at h
      refine ⟨0, by simpa [h] using hm, ?_⟩
      intro j hj
      exact absurd hj (Nat.not_lt_zero j)
    | none =>
      rw [hm] at h
      simp only [] at h
      obtain ⟨i, h1, h2⟩ := ih h
      refine ⟨i + 1, by simpa using h1, ?_⟩
      intro j hj
      cases j with
      | zero => simpa using hm
      | succ j2 =>
        rw [List.drop_succ_cons]
        exact h2 j2 (Nat.lt_of_succ_lt_succ hj)

/-- Claim C9: `extract_osf_url` returns at most one URL (its result type is
`Option`), preferring `psyarxiv.com` over `osf.io` regardless of position:
whenever any position of the text matches the `psyarxiv.com` pattern, the
result is the leftmost such match (trailing `).,]` stripped); otherwise,
whenever any position matches the `osf.io` pattern, the result is the
leftmost such match; otherwise the result is `none`. -/
theorem c9_single_url_psyarxiv_preference (t : String) (ht : ¬ t = "") :
    ((∃ i mm, matchAt psyHost (t.toList.drop i) = some mm) →
      ∃ i mm, matchAt psyHost (t.toList.drop i) = some mm ∧
        (∀ j, j < i → matchAt psyHost (t.toList.drop j) = none) ∧
        extract_osf_url (some t) = some (String.mk (stripTrail mm)))
    ∧ ((∀ i, matchAt psyHost (t.toList.drop i) = none) →
      (∃ i mm, matchAt osfHost (t.toList.drop i) = some mm) →
      ∃ i mm, matchAt osfHost (t.toList.drop i) = some mm ∧
        (∀ j, j < i → matchAt osfHost (t.toList.drop j) = none) ∧
        extract_osf_url (some t) = some (String.mk (stripTrail mm)))
    ∧ ((∀ i, matchAt psyHost (t.toList.drop i) = none) →
      (∀ i, matchAt osfHost (t.toList.drop i) = none) →
      extract_osf_url (some t) = none) := by
  refine ⟨?_, ?_, ?_⟩
  · rintro ⟨i, mm, hm⟩
    cases hs : searchUrl psyHost t.toList with
    | none =>
      have := (searchUrl_eq_none_iff psyHost t.toList).mp hs i
      rw [hm] at this
      exact absurd this (by simp)
    | some m =>
      obtain ⟨i0, h1, h2⟩ := searchUrl_eq_some_spec hs
      refine ⟨i0, m, h1, h2, ?_⟩
      simp only [extract_osf_url]
      rw [if_neg ht, hs]
  · intro hpsy hex
    have hpnone : searchUrl psyHost t.toList = none :=
      (searchUrl_eq_none_iff psyHost t.toList).mpr hpsy
    obtain ⟨i, mm, hm⟩ := hex
    cases hs : searchUrl osfHost t.toList with
    | none =>
      have := (searchUrl_eq_none_iff osfHost t.toList).mp hs i
      rw [hm] at this
      exact absurd this (by simp)
    | some m =>
      obtain ⟨i0, h1, h2⟩ := searchUrl_eq_some_spec hs
      refine ⟨i0, m, h1, h2, ?_⟩
      simp only [extract_osf_url]
      rw [if_neg ht, hpnone, hs]
  · intro hpsy hosf
    have hpnone : searchUrl psyHost t.toList = none :=
      (searchUrl_eq_none_iff psyHost t.toList).mpr hpsy
    have honone : searchUrl osfHost t.toList = none :=
      (searchUrl_eq_none_iff osfHost t.toList).mpr hosf
    simp only [extract_osf_url]
    rw [if_neg ht, hpnone, honone]

/-- Witness for C9 on a text where an `osf.io` URL occurs *before* a
`psyarxiv.com` URL: the `psyarxiv.com` URL still wins. -/
theorem c9_single_url_psyarxiv_preference_witness :
    ∃ i mm,
      matchAt psyHost (("go https://osf.io/zz1 and https://psyarxiv.com/ab2 end").toList.drop i)
        = some mm ∧
      (∀ j, j < i →
        matchAt psyHost (("go https://osf.io/zz1 and https://psyarxiv.com/ab2 end").toList.drop j)
          = none) ∧
      extract_osf_url (some "go https://osf.io/zz1 and https://psyarxiv.com/ab2 end")
        = some (String.mk (stripTrail mm)) :=
  (c9_single_url_psyarxiv_preference "go https://osf.io/zz1 and https://psyarxiv.com/ab2 end"
    (by decide)).1 ⟨26, "https://psyarxiv.com/ab2".toList, by decide⟩


/-! ### Claim C3: mirror handling of `osf.io` URLs -/

/-- Counterexample to claim C3.  The claim says that for an `osf.io` URL the
normalization probes the preferred mirror and returns the preferred-mirror
canonical form when the probe succeeds.  The source has no probe at all:
`extract_osf_url` is a pure function of the text and returns the raw
`osf.io` URL itself, which is neither the preferred-mirror canonical form
(computed here by the spec-modelled `specNormalize` with an
always-reachable probe) nor dependent on any network state. -/
theorem c3_probe_counterexample :
    extract_osf_url (some "https://osf.io/xyz99") = some "https://osf.io/xyz99" ∧
    specNormalize (fun _ => true) "https://osf.io/xyz99" = some "psyarxiv:xyz99" ∧
    specNormalize (fun _ => false) "https://osf.io/xyz99" = some "osf:xyz99" ∧
    ¬ ((some "https://osf.io/xyz99" : Option String) = some "psyarxiv:xyz99") := by
  refine ⟨by decide, by decide, by decide, by decide⟩

/-- Claim C3 as amended: the source performs no mirror probe and computes no
canonical form.  A text whose `psyarxiv.com` pattern never matches and whose
`osf.io` pattern has a leftmost match `m` yields exactly the raw secondary
URL `m` (trailing `).,]` stripped) — independent of any network condition,
since `extract_osf_url` takes no probe. -/
theorem c3_osf_url_returned_without_probe (t : String) (m : List Char) (ht : ¬ t = "")
    (hpsy : ∀ i, matchAt psyHost (t.toList.drop i) = none)
    (hosf : searchUrl osfHost t.toList = some m) :
    extract_osf_url (some t) = some (String.mk (stripTrail m)) := by
  have hpnone : searchUrl psyHost t.toList = none :=
    (searchUrl_eq_none_iff psyHost t.toList).mpr hpsy
  simp only [extract_osf_url]
  rw [if_neg ht, hpnone, hosf]

/-- Witness for the amended C3 at a concrete secondary-domain URL. -/
theorem c3_osf_url_returned_without_probe_witness :
    extract_osf_url (some "read https://osf.io/xyz99.") = some "https://osf.io/xyz99" :=
  c3_osf_url_returned_without_probe "read https://osf.io/xyz99."
    "https://osf.io/xyz99.".toList (by decide)
    ((searchUrl_eq_none_iff psyHost ("read https://osf.io/xyz99.").toList).mp (by decide))
    (by decide)

/-! ### Claim C10: missing or empty API key -/

/-- Claim C10: when `OPENAI_API_KEY` is unset (`none`) or empty
(`some ""`), `ja_title_from_en` returns the English title unchanged and
performs zero translation-service invocations. -/
theorem c10_missing_key_skips_service (k : Option String)
    (service : String → Option String) (en : String) (h : hasKey k = false) :
    ja_title_from_en k service en = (en, 0) := by
  unfold ja_title_from_en
  rw [if_neg (by simp [h])]

/-- Witness for C10 with the key unset and with it set to the empty string. -/
theorem c10_missing_key_skips_service_witness :
    ja_title_from_en none (fun _ => some "訳") "Title" = ("Title", 0) ∧
    ja_title_from_en (some "") (fun _ => some "訳") "Title" = ("Title", 0) :=
  ⟨c10_missing_key_skips_service none _ _ (by decide),
   c10_missing_key_skips_service (some "") _ _ (by decide)⟩

/-! ### Claim C2: the (absent) translation cache -/

/-- Counterexample to claim C2.  The claim says two invocations with the
same title cause at most one call to the underlying translation service.
The source has no cache of any kind: with an API key present each
invocation performs exactly one service call, so two invocations perform
two — and 2 > 1. -/
theorem c2_cache_counterexample :
    (ja_title_from_en (some "sk-test") (fun _ => some "X") "Title").2 +
      (ja_title_from_en (some "sk-test") (fun _ => some "X") "Title").2 = 2 ∧
    ¬ ((2 : Nat) ≤ 1) := by
  refine ⟨by decide, by decide⟩

/-- Claim C2 as amended: there is no translation cache; whenever the API
key is present, every invocation of `ja_title_from_en` performs exactly one
service call, so invoking it twice with the same title performs exactly
two calls (the second returns the identical string only because the
computation is deterministic, not because anything was cached). -/
theorem c2_translation_uncached (k : Option String)
    (service : String → Option String) (en : String) (h : hasKey k = true) :
    (ja_title_from_en k service en).2 = 1 ∧
    (ja_title_from_en k service en).2 + (ja_title_from_en k service en).2 = 2 := by
  have h1 : (ja_title_from_en k service en).2 = 1 := by
    unfold ja_title_from_en
    rw [if_pos h]
    cases service en with
    | none => rfl
    | some content =>
      show (if pyStrip content = "" then (en, 1)
        else (pyStrip (collapseWs (pyStrip content)), 1)).2 = 1
      by_cases hc : pyStrip content = ""
      · rw [if_pos hc]
      · rw [if_neg hc]
  exact ⟨h1, by rw [h1]⟩

/-- Witness for the amended C2 at a concrete key, service and title. -/
theorem c2_translation_uncached_witness :
    (ja_title_from_en (some "sk") (fun _ => some "記憶の研究") "A study of memory").2 = 1 ∧
    (ja_title_from_en (some "sk") (fun _ => some "記憶の研究") "A study of memory").2 +
      (ja_title_from_en (some "sk") (fun _ => some "記憶の研究") "A study of memory").2 = 2 :=
  c2_translation_uncached (some "sk") _ _ (by decide)

/-! ### Claim C5: failed translations -/

/-- Counterexample to claim C5.  The claim says a translation that merely
echoes the English text back unchanged is treated as a failure and the
original English title is returned unmodified.  The source never compares
the output with the input: an echoed title goes through
`re.sub(r"\s+", " ", _).strip()`, so an English title containing a double
space comes back altered, not unmodified. -/
theorem c5_echo_counterexample :
    (ja_title_from_en (some "sk") (fun t => some t) "A  B").1 = "A B" ∧
    ¬ (("A B" : String) = "A  B") := by
  refine ⟨by decide, by decide⟩

/-- Claim C5 as amended: on a raised service exception or an
empty-after-strip service output, the original English title is returned
unmodified; there is no cache, so nothing is ever recorded and a later
invocation with a succeeding service still returns that translation
(whitespace-collapsed and stripped); an echoed translation, however, is
*not* detected as a failure — it is returned after the same whitespace
normalization. -/
theorem c5_failure_returns_original_uncached :
    (∀ (k : Option String) (s : String → Option String) (en : String),
      s en = none → (ja_title_from_en k s en).1 = en)
    ∧ (∀ (k : Option String) (s : String → Option String) (en c : String),
      s en = some c → pyStrip c = "" → (ja_title_from_en k s en).1 = en)
    ∧ (∀ (k : Option String) (s1 s2 : String → Option String) (en j : String),
      hasKey k = true → s1 en = none → s2 en = some j → ¬ pyStrip j = "" →
        (ja_title_from_en k s1 en).1 = en ∧
        (ja_title_from_en k s2 en).1 = pyStrip (collapseWs (pyStrip j))) := by
  refine ⟨?_, ?_, ?_⟩
  · intro k s en h
    unfold ja_title_from_en
    by_cases hk : hasKey k = true
    · rw [if_pos hk, h]
    · rw [if_neg hk]
  · intro k s en c h hc
    unfold ja_title_from_en
    by_cases hk : hasKey k = true
    · rw [if_pos hk, h]
      show (if pyStrip c = "" then (en, 1)
        else (pyStrip (collapseWs (pyStrip c)), 1)).1 = en
      rw [if_pos hc]
    · rw [if_neg hk]
  · intro k s1 s2 en j hk h1 h2 hj
    constructor
    · unfold ja_title_from_en
      rw [if_pos hk, h1]
    · unfold ja_title_from_en
      rw [if_pos hk, h2]
      show (if pyStrip j = "" then (en, 1)
        else (pyStrip (collapseWs (pyStrip j)), 1)).1 = pyStrip (collapseWs (pyStrip j))
      rw [if_neg hj]

/-- Witness for the amended C5: a failing first call returns the English
title; a later succeeding call for the same title returns the translation. -/
theorem c5_failure_returns_original_uncached_witness :
    (ja_title_from_en (some "sk") (fun _ => none) "A study").1 = "A study" ∧
    (ja_title_from_en (some "sk") (fun _ => some " ある研究 ") "A study").1 =
      pyStrip (collapseWs (pyStrip " ある研究 ")) :=
  c5_failure_returns_original_uncached.2.2 (some "sk") (fun _ => none)
    (fun _ => some " ある研究 ") "A study" " ある研究 " (by decide) rfl rfl (by decide)

/-! ### Per-item case lemmas for the `build_real_entries` loop -/

theorem entryOfRecord_none_of_text {getOsf : String → Option String × List String}
    {apiKey : Option String} {service : String → Option String}
    {parseFmt : String → Option String} {now : String} {r : Record}
    (h : r.text = "") : entryOfRecord getOsf apiKey service parseFmt now r = none := by
  unfold entryOfRecord
  rw [if_pos h]

theorem entryOfRecord_none_of_nourl {getOsf : String → Option String × List String}
    {apiKey : Option String} {service : String → Option String}
    {parseFmt : String → Option String} {now : String} {r : Record}
    (h1 : ¬ r.text = "") (h2 : extract_osf_url (some r.text) = none) :
    entryOfRecord getOsf apiKey service parseFmt now r = none := by
  unfold entryOfRecord
  rw [if_neg h1, h2]

theorem entryOfRecord_some_of_url {getOsf : String → Option String × List String}
    {apiKey : Option String} {service : String → Option String}
    {parseFmt : String → Option String} {now : String} {r : Record} {u : String}
    (h1 : ¬ r.text = "") (h2 : extract_osf_url (some r.text) = some u) :
    entryOfRecord getOsf apiKey service parseFmt now r
      = some (entryBody getOsf apiKey service parseFmt now r u) := by
  unfold entryOfRecord
  rw [if_neg h1, h2]

theorem record_ok_false_of_text {r : Record} (h : r.text = "") : record_ok r = false := by
  unfold record_ok
  rw [if_pos h]

theorem record_ok_false_of_nourl {r : Record} (h1 : ¬ r.text = "")
    (h2 : extract_osf_url (some r.text) = none) : record_ok r = false := by
  unfold record_ok
  rw [if_neg h1, h2]
  rfl

theorem record_ok_true_of_url {r : Record} {u : String} (h1 : ¬ r.text = "")
    (h2 : extract_osf_url (some r.text) = some u) : record_ok r = true := by
  unfold record_ok
  rw [if_neg h1, h2]
  rfl

/-! ### Claim C1: deduplication by most-recent mention -/

/-- Counterexample to claim C1.  Two posts mentioning the same canonical
URL `https://osf.io/xyz99` at timestamps `T1` and `T2` produce *two*
entries for that identity — one per mention, each with its own post's
timestamp — not one entry with the maximum timestamp: the source performs
no deduplication whatsoever. -/
theorem c1_duplicate_counterexample :
    (build_real_entries (some [⟨"x https://osf.io/xyz99", some "T1", [], []⟩,
        ⟨"y https://osf.io/xyz99", some "T2", [], []⟩])
      (fun _ => (none, [])) none (fun _ => none) (fun c => some c) "NOW").map (fun e => e.link)
      = ["https://osf.io/xyz99", "https://osf.io/xyz99"] ∧
    (build_real_entries (some [⟨"x https://osf.io/xyz99", some "T1", [], []⟩,
        ⟨"y https://osf.io/xyz99", some "T2", [], []⟩])
      (fun _ => (none, [])) none (fun _ => none) (fun c => some c) "NOW").map (fun e => e.pubDate)
      = ["T1", "T2"] ∧
    ¬ ((2 : Nat) = 1) := by
  refine ⟨by decide, by decide, by decide⟩

/-- Claim C1 as amended: no recency reduction exists.  The entry list
carries exactly one entry per URL-bearing post, in feed order, so the
links of the final entries are precisely the per-post extraction results
with duplicates retained — an identity mentioned by several posts appears
once per mention (each entry keeping its own post's timestamp), never
collapsed to a single maximum-timestamp entry. -/
theorem c1_reducer_keeps_duplicates (getOsf : String → Option String × List String)
    (apiKey : Option String) (service : String → Option String)
    (parseFmt : String → Option String) (now : String) (feed : List Record) :
    (build_real_entries (some feed) getOsf apiKey service parseFmt now).map (fun e => e.link)
      = feed.filterMap
          (fun r => if r.text = "" then none else extract_osf_url (some r.text)) := by
  simp only [build_real_entries]
  induction feed with
  | nil => rfl
  | cons r rest ih =>
    by_cases ht : r.text = ""
    · rw [List.filterMap_cons_none (entryOfRecord_none_of_text ht),
        @List.filterMap_cons_none _ _
          (fun r : Record => if r.text = "" then none else extract_osf_url (some r.text))
          r rest (by simp [ht])]
      exact ih
    · cases hx : extract_osf_url (some r.text) with
      | none =>
        rw [List.filterMap_cons_none (entryOfRecord_none_of_nourl ht hx),
          @List.filterMap_cons_none _ _
            (fun r : Record => if r.text = "" then none else extract_osf_url (some r.text))
            r rest (by simp [ht, hx])]
        exact ih
      | some u =>
        rw [List.filterMap_cons_some (entryOfRecord_some_of_url ht hx),
          @List.filterMap_cons_some _ _
            (fun r : Record => if r.text = "" then none else extract_osf_url (some r.text))
            r rest u (by simp [ht, hx]),
          List.map_cons, ih]
        rfl

/-! ### Claim C7: bound and ordering of the final entries -/

/-- Counterexample to claim C7.  A feed whose items carry increasing
timestamps `1`, `2` yields entries in feed order `["1", "2"]` — the source
never sorts — while the claim requires descending recency order, i.e. the
larger timestamp `2` first; and `"2" ≤ "1"` is false. -/
theorem c7_order_counterexample :
    (build_real_entries (some [⟨"a https://osf.io/aaa11", some "1", [], []⟩,
        ⟨"b https://osf.io/bbb22", some "2", [], []⟩])
      (fun _ => (none, [])) none (fun _ => none) (fun c => some c) "NOW").map (fun e => e.pubDate)
      = ["1", "2"] ∧
    "1".toList < "2".toList := by
  refine ⟨by decide, by decide⟩

/-- Claim C7 as amended: the entry count is bounded by the number of feed
items in the response — the configured maximum `LIMIT` is only sent as the
request's page-size parameter, so the count is ≤ `LIMIT` exactly when the
response honours it — and the entries are emitted in feed order, each with
its own post's date; no sort by descending timestamp (nor any tie-break)
is performed. -/
theorem c7_bound_and_feed_order (getOsf : String → Option String × List String)
    (apiKey : Option String) (service : String → Option String)
    (parseFmt : String → Option String) (now : String) (feed : List Record) :
    (build_real_entries (some feed) getOsf apiKey service parseFmt now).length ≤ feed.length ∧
    (feed.length ≤ LIMIT →
      (build_real_entries (some feed) getOsf apiKey service parseFmt now).length ≤ LIMIT) ∧
    (build_real_entries (some feed) getOsf apiKey service parseFmt now).map (fun e => e.pubDate)
      = (feed.filter record_ok).map (pubDateOf parseFmt now) := by
  have hmap : (build_real_entries (some feed) getOsf apiKey service parseFmt now).map
      (fun e => e.pubDate) = (feed.filter record_ok).map (pubDateOf parseFmt now) := by
    simp only [build_real_entries]
    induction feed with
    | nil => rfl
    | cons r rest ih =>
      by_cases ht : r.text = ""
      · rw [List.filterMap_cons_none (entryOfRecord_none_of_text ht),
          List.filter_cons_of_neg (by rw [record_ok_false_of_text ht]; exact Bool.false_ne_true)]
        exact ih
      · cases hx : extract_osf_url (some r.text) with
        | none =>
          rw [List.filterMap_cons_none (entryOfRecord_none_of_nourl ht hx),
            List.filter_cons_of_neg
              (by rw [record_ok_false_of_nourl ht hx]; exact Bool.false_ne_true)]
          exact ih
        | some u =>
          rw [List.filterMap_cons_some (entryOfRecord_some_of_url ht hx),
            List.filter_cons_of_pos (record_ok_true_of_url ht hx),
            List.map_cons, List.map_cons, ih]
          rfl
  have hlen : (build_real_entries (some feed) getOsf apiKey service parseFmt now).length
      ≤ feed.length := by
    simp only [build_real_entries]
    exact List.length_filterMap_le _ _
  exact ⟨hlen, fun hf => le_trans hlen hf, hmap⟩

/-- Witness for the amended C7 on a one-item feed, discharging the
`feed.length ≤ LIMIT` hypothesis of the bound conjunct. -/
theorem c7_bound_and_feed_order_witness :
    (build_real_entries (some [⟨"a https://osf.io/aaa11", some "1", [], []⟩])
      (fun _ => (none, [])) none (fun _ => none) (fun c => some c) "NOW").length ≤ LIMIT ∧
    (build_real_entries (some [⟨"a https://osf.io/aaa11", some "1", [], []⟩])
      (fun _ => (none, [])) none (fun _ => none) (fun c => some c) "NOW").map (fun e => e.pubDate)
      = ((([⟨"a https://osf.io/aaa11", some "1", [], []⟩] : List Record).filter
          record_ok).map (pubDateOf (fun c => some c) "NOW")) :=
  ⟨(c7_bound_and_feed_order (fun _ => (none, [])) none (fun _ => none) (fun c => some c)
      "NOW" [⟨"a https://osf.io/aaa11", some "1", [], []⟩]).2.1 (by decide),
   (c7_bound_and_feed_order (fun _ => (none, [])) none (fun _ => none) (fun c => some c)
      "NOW" [⟨"a https://osf.io/aaa11", some "1", [], []⟩]).2.2⟩

/-! ### Claim C4: the three extraction sources -/

/-- Counterexample to claim C4.  A post whose facet annotation carries a
preprint URL but whose free text has none yields *no* entry — the source
reads only the free text — while the spec-modelled union extractor finds
the URL; and a text with two preprint URLs yields a single URL, not an
order-preserving list of both. -/
theorem c4_union_counterexample :
    build_real_entries (some [⟨"Great paper!", some "T", ["https://psyarxiv.com/abcd1"], []⟩])
      (fun _ => (none, [])) none (fun _ => none) (fun _ => none) "NOW" = [] ∧
    specExtractUrls ⟨"Great paper!", some "T", ["https://psyarxiv.com/abcd1"], []⟩
      = ["https://psyarxiv.com/abcd1"] ∧
    extract_osf_url (some "see https://psyarxiv.com/a https://psyarxiv.com/b")
      = some "https://psyarxiv.com/a" ∧
    specExtractUrls ⟨"see https://psyarxiv.com/a https://psyarxiv.com/b", none, [], []⟩
      = ["https://psyarxiv.com/a", "https://psyarxiv.com/b"] := by
  refine ⟨by decide, by decide, by decide, by decide⟩

/-- Claim C4 as amended: URL extraction reads only the free-text body of a
post.  The per-item entry computation is invariant under arbitrary changes
to the structured facet URIs and embed URIs, and an item produces an entry
exactly when its text is non-empty and the single-URL regex scan of the
text succeeds; no union list of facet, embed and text URLs is formed (the
result type of `extract_osf_url` holds at most one URL). -/
theorem c4_extraction_text_only :
    (∀ (getOsf : String → Option String × List String) (apiKey : Option String)
        (service parseFmt : String → Option String) (now text : String)
        (ca : Option String) (f1 e1 f2 e2 : List String),
      entryOfRecord getOsf apiKey service parseFmt now ⟨text, ca, f1, e1⟩
        = entryOfRecord getOsf apiKey service parseFmt now ⟨text, ca, f2, e2⟩)
    ∧ (∀ (getOsf : String → Option String × List String) (apiKey : Option String)
        (service parseFmt : String → Option String) (now : String) (r : Record),
      (entryOfRecord getOsf apiKey service parseFmt now r).isSome = record_ok r) := by
  constructor
  · intro getOsf apiKey service parseFmt now text ca f1 e1 f2 e2
    rfl
  · intro getOsf apiKey service parseFmt now r
    by_cases ht : r.text = ""
    · rw [entryOfRecord_none_of_text ht, record_ok_false_of_text ht]
      rfl
    · cases hx : extract_osf_url (some r.text) with
      | none =>
        rw [entryOfRecord_none_of_nourl ht hx, record_ok_false_of_nourl ht hx]
        rfl
      | some u =>
        rw [entryOfRecord_some_of_url ht hx, record_ok_true_of_url ht hx]
        rfl

/-! ### Claim C6: title resolution order -/

/-- Counterexample to claim C6.  With the metadata API failing and the
(spec-modelled) HTML page offering a generic `og:title` of `"OSF"` and an
`<h1>` of `"Real Paper Title"`, the spec's resolver returns
`"Real Paper Title"`; the source has no HTML-scraping stage at all and
falls straight through to the post-text fallback, returning
`"Check this out"`. -/
theorem c6_html_counterexample :
    resolve_en_title none "Check this out: https://osf.io/xyz99" "https://osf.io/xyz99"
      = "Check this out" ∧
    specResolveTitle (fun v => v == "OSF") none
      (some ⟨none, some "OSF", some "Real Paper Title", none⟩)
      "Check this out: https://osf.io/xyz99" "https://osf.io/xyz99"
      = "Real Paper Title" ∧
    ¬ (("Check this out" : String) = "Real Paper Title") := by
  refine ⟨by decide, by decide, by decide⟩

/-- Claim C6 as amended: title resolution has exactly two strategies, in
order with first success winning.  (1) When the metadata API lookup
returned a title that is non-empty after stripping, its stripped form is
used; (2) otherwise the fallback title is derived by removing the URL from
the post text and trimming trailing separators, and when nothing remains
the URL itself becomes the title.  There is no HTML page-scraping stage. -/
theorem c6_api_then_posttext_resolution :
    (∀ t text url, ¬ pyStrip t = "" → resolve_en_title (some t) text url = pyStrip t)
    ∧ (∀ t text url, pyStrip t = "" →
        resolve_en_title (some t) text url = extract_en_title_from_post text url)
    ∧ (∀ text url, resolve_en_title none text url = extract_en_title_from_post text url)
    ∧ (∀ text url, fallback_core text url = "" → extract_en_title_from_post text url = url)
    ∧ (∀ text url, ¬ fallback_core text url = "" →
        extract_en_title_from_post text url = fallback_core text url) := by
  refine ⟨?_, ?_, ?_, ?_, ?_⟩
  · intro t text url h
    simp only [resolve_en_title]
    rw [if_neg h]
  · intro t text url h
    simp only [resolve_en_title]
    rw [if_pos h]
  · intro text url
    rfl
  · intro text url h
    unfold extract_en_title_from_post
    rw [if_pos h]
  · intro text url h
    unfold extract_en_title_from_post
    rw [if_neg h]

/-- Witness for the amended C6, exercising each strategy at concrete
inputs: a usable API title wins; a blank API title falls back; a text that
is nothing but the URL resolves to the URL itself; a text with surrounding
words resolves to the trimmed remainder. -/
theorem c6_api_then_posttext_resolution_witness :
    resolve_en_title (some " A Title ") "tx" "u" = pyStrip " A Title " ∧
    resolve_en_title (some "   ") "Check https://osf.io/ab1" "https://osf.io/ab1"
      = extract_en_title_from_post "Check https://osf.io/ab1" "https://osf.io/ab1" ∧
    extract_en_title_from_post "https://osf.io/ab1" "https://osf.io/ab1"
      = "https://osf.io/ab1" ∧
    extract_en_title_from_post "Check: https://osf.io/ab1" "https://osf.io/ab1"
      = fallback_core "Check: https://osf.io/ab1" "https://osf.io/ab1" :=
  ⟨c6_api_then_posttext_resolution.1 " A Title " "tx" "u" (by decide),
   c6_api_then_posttext_resolution.2.1 "   " _ _ (by decide),
   c6_api_then_posttext_resolution.2.2.2.1 "https://osf.io/ab1" "https://osf.io/ab1" (by decide),
   c6_api_then_posttext_resolution.2.2.2.2 "Check: https://osf.io/ab1" "https://osf.io/ab1"
     (by decide)⟩

/-! ### Claim C8: placeholder entries on an empty pipeline -/

/-- Escaped text never contains a raw `<`, so no entry field can open a
tag inside the serialized document. -/
theorem htmlEscape_no_lt (s : String) : ¬ '<' ∈ (htmlEscape s).toList := by
  show ¬ '<' ∈ s.toList.flatMap escChar
  intro hmem
  obtain ⟨c, _, hc⟩ := List.mem_flatMap.mp hmem
  unfold escChar at hc
  split_ifs at hc with h1 h2 h3 h4 h5
  · exact absurd hc (by decide)
  · exact absurd hc (by decide)
  · exact absurd hc (by decide)
  · exact absurd hc (by decide)
  · exact absurd hc (by decide)
  · rw [List.mem_singleton] at hc
    exact h2 hc.symm

/-- Counterexample to claim C8.  The placeholder entries do *not* use a
recognizable dummy domain: their links live on `psyarxiv.com` — the very
domain real entries use — and the pipeline's own extractor recognizes a
placeholder link as a genuine preprint URL. -/
theorem c8_domain_counterexample :
    (build_test_entries "NOW").map (fun e => e.link)
      = ["https://psyarxiv.com/abcd1", "https://psyarxiv.com/abcd2"] ∧
    extract_osf_url (some "https://psyarxiv.com/abcd1") = some "https://psyarxiv.com/abcd1" := by
  refine ⟨by decide, by decide⟩

/-- Claim C8 as amended: whenever the pipeline produces zero real entries
(for any cause, including a failed feed fetch, modelled by `data = none`),
the output substitutes the fixed two-entry placeholder set; the
placeholders are distinguishable only by their test titles
(`テスト論文その1/2`) — their links use the real `psyarxiv.com` domain,
not a dummy domain — and the document remains well-formed in that every
title/link/guid/description field is XML-escaped before insertion
(escaped text cannot contain a raw `<`). -/
theorem c8_placeholder_fallback (getOsf : String → Option String × List String)
    (apiKey : Option String) (service parseFmt : String → Option String)
    (now : String) (data : Option (List Record))
    (h : build_real_entries data getOsf apiKey service parseFmt now = []) :
    build_entries data getOsf apiKey service parseFmt now = build_test_entries now ∧
    (build_test_entries now).length = 2 ∧
    (build_test_entries now).map (fun e => e.title) = ["テスト論文その1", "テスト論文その2"] ∧
    ∀ s, ¬ '<' ∈ (htmlEscape s).toList := by
  refine ⟨?_, rfl, rfl, htmlEscape_no_lt⟩
  unfold build_entries
  rw [h]

/-- Witness for the amended C8 with a failed feed fetch (`data = none`). -/
theorem c8_placeholder_fallback_witness :
    build_entries none (fun _ => (none, [])) none (fun _ => none) (fun _ => none) "NOW"
      = build_test_entries "NOW" ∧
    (build_test_entries "NOW").length = 2 ∧
    (build_test_entries "NOW").map (fun e => e.title) = ["テスト論文その1", "テスト論文その2"] ∧
    ∀ s, ¬ '<' ∈ (htmlEscape s).toList :=
  c8_placeholder_fallback (fun _ => (none, [])) none (fun _ => none) (fun _ => none)
    "NOW" none rfl
